import Mathlib

/-!
Shallow embedding of `optimal_continousrun.py` (LLM inference benchmark
automation).  The script drives an external benchmark binary, searches for the
largest concurrent-user count whose latency metrics pass fixed thresholds
(linear probe followed by binary-search refinement), and can then loop forever
at that count emitting summary reports.

Modelling conventions:
* Real-valued metrics are rationals (`ℚ`); user counts and bounds are `Int`
  (Python integers are unbounded, and the binary-search return value `low - 1`
  can be negative).
* `subprocess.run` either returns a completed process (any exit code) or
  raises; this environmental choice is the `LaunchOutcome` inductive, and
  `run_benchmark` maps it exactly as the `try/except` in the source does.
* The per-count artifact directory is a function `Int → Option (Option AvgRow)`:
  `none` = `avg_Response_User<N>.csv` absent, `some none` = file present but a
  required column is missing/unparsable (pandas raises, caught by the source's
  `except`), `some (some row)` = first data row parsed.
* Python's `(None, None, None, None, None)` failure tuple is collapsed to
  `none : Option (ℚ × ℚ × ℚ × ℚ × ℚ)`; the source returns either five `None`s
  or five values, never a mixture.
* The config document's mutable `user_counts` field is the only config state
  the search touches; each trial records the pair
  (user_counts value written to disk just before launch, count dispatched).
* Phase 1 of `adjust_user_count` is a genuine potentially-infinite `while True`
  loop (it only leaves via a rejection or a failure), so it is embedded with
  explicit fuel, returning `none` when the fuel runs out.  The binary-search
  loop always terminates (the interval shrinks every iteration), so it is
  embedded as a total well-founded recursion with no fuel.
-/

namespace OptimalRun

/-- Outcome of `subprocess.run(['echoswift', 'start', '--config', ...])`:
either the call returns a `CompletedProcess` (with some exit code, after some
elapsed wall time) or it raises an exception. -/
inductive LaunchOutcome where
  | completed (exitCode : Int) (elapsed : ℚ)
  | raised
deriving DecidableEq

/-- First data row of an `avg_Response_User<N>.csv` artifact: the four numeric
columns the extractor reads. -/
structure AvgRow where
  ttft : ℚ
  latency_per_token : ℚ
  latency : ℚ
  throughput : ℚ
deriving DecidableEq

/-- Environment of one (deterministic) benchmark campaign: for each user count,
the launch outcome of the external process, and the state of the canonical
per-count artifact in the results directory. -/
structure TrialEnv where
  run : Int → LaunchOutcome
  dir : Int → Option (Option AvgRow)

/-- Threshold table of the source, `VALIDATION_CRITERION = {"TTFT": 2000,
"latency_per_token": 200, "latency": 200}`. -/
structure Criterion where
  TTFT : ℚ
  latency_per_token : ℚ
  latency : ℚ
deriving DecidableEq

/-- The fixed thresholds for TTFT and latency defined at the top of the
source file. -/
def VALIDATION_CRITERION : Criterion :=
  { TTFT := 2000, latency_per_token := 200, latency := 200 }

/-- Embedding of `validate_criterion(ttft, latency_per_token, latency)`.  The
source compares `ttft` and `latency_per_token` against the table; the raw
`latency` comparison is commented out in the source, so the third argument is
ignored. -/
def validate_criterion (ttft latency_per_token latency : ℚ) : Bool :=
  decide (ttft ≤ VALIDATION_CRITERION.TTFT)
    && decide (latency_per_token ≤ VALIDATION_CRITERION.latency_per_token)

/-- Embedding of `run_benchmark(config_file)`: returns the pair
`(result, run_time)`.  A completed process (any exit code) yields
`(some exitCode, some elapsed)`; an exception during invocation is caught and
yields `(None, None)`. -/
def run_benchmark : LaunchOutcome → Option Int × Option ℚ
  | .completed exitCode elapsed => (some exitCode, some elapsed)
  | .raised => (none, none)

/-- Embedding of `extract_metrics_from_avg_response(result_dir, user_count)`:
reads `avg_Response_User<user_count>.csv`; missing file or unparsable columns
give the five-`None` failure value (here `none`); otherwise returns
`(ttft, latency_per_token, latency, throughput, throughput * user_count)`. -/
def extract_metrics_from_avg_response (dir : Int → Option (Option AvgRow))
    (user_count : Int) : Option (ℚ × ℚ × ℚ × ℚ × ℚ) :=
  match dir user_count with
  | none => none
  | some none => none
  | some (some row) =>
      some (row.ttft, row.latency_per_token, row.latency, row.throughput,
        row.throughput * (user_count : ℚ))

/-- Classification of one trial as the search loops see it: the benchmark
launch failed (`result is None`), metric extraction failed (any `None` metric),
or the metrics were produced and `validate_criterion` accepted/rejected them. -/
inductive TrialOut where
  | runFail
  | extractFail
  | accept
  | reject
deriving DecidableEq

/-- Derived one-trial outcome, composed exactly as each loop body of the
source composes `run_benchmark`, `extract_metrics_from_avg_response` and
`validate_criterion`. -/
def trialOutcome (env : TrialEnv) (n : Int) : TrialOut :=
  match run_benchmark (env.run n) with
  | (none, _) => .runFail
  | (some _, _) =>
      match extract_metrics_from_avg_response env.dir n with
      | none => .extractFail
      | some (ttft, latency_per_token, latency, _, _) =>
          if validate_criterion ttft latency_per_token latency then .accept
          else .reject

/-- Instrumented result of `binary_search_user_count`: the config values
written to disk paired with each dispatched count, the value of `low` when the
loop exited, and the returned value. -/
structure BSRun where
  launches : List (List Int × Int)
  finalLow : Int
  result : Int
deriving DecidableEq

/-- Embedding of `binary_search_user_count(config_file, low, high, result_dir)`.
Each iteration writes `user_counts = [mid]` to the config document, launches
the benchmark, extracts metrics, and moves `low` or `high`; a launch or
extraction failure breaks out of the loop.  Both the break and the normal exit
return `low - 1`.  The loop always terminates because `high - low` strictly
decreases at every accepted or rejected iteration. -/
def binary_search_user_count (env : TrialEnv) (low high : Int) : BSRun :=
  if _h : low < high then
    match run_benchmark (env.run ((low + high) / 2)) with
    | (none, _) => ⟨[([(low + high) / 2], (low + high) / 2)], low, low - 1⟩
    | (some _, _) =>
        match extract_metrics_from_avg_response env.dir ((low + high) / 2) with
        | none => ⟨[([(low + high) / 2], (low + high) / 2)], low, low - 1⟩
        | some (ttft, latency_per_token, latency, _, _) =>
            if validate_criterion ttft latency_per_token latency then
              let r := binary_search_user_count env ((low + high) / 2 + 1) high
              ⟨([(low + high) / 2], (low + high) / 2) :: r.launches,
                r.finalLow, r.result⟩
            else
              let r := binary_search_user_count env low ((low + high) / 2)
              ⟨([(low + high) / 2], (low + high) / 2) :: r.launches,
                r.finalLow, r.result⟩
  else ⟨[], low, low - 1⟩
termination_by (high - low).toNat
decreasing_by
  · omega
  · omega

/-- Instrumented result of `adjust_user_count`: the config writes paired with
dispatched counts, the Phase-1 trial counts in order, the bounds handed to
`binary_search_user_count` (if Phase 2 was entered), the Python return value
(`none` encodes Python's `None`, "no valid optimal user count found"), and
whether `generate_summary_report` was invoked. -/
structure AdjustRun where
  launches : List (List Int × Int)
  phase1Trials : List Int
  bsBounds : Option (Int × Int)
  optimal : Option Int
  reportWritten : Bool
deriving DecidableEq

/-- One Phase-1 step of `adjust_user_count`, with explicit fuel for the
`while True` loop (`none` = fuel exhausted; the Python loop is still running).
State mirrors the source's locals: `user_count`, `previous_user_count`,
`optimal_user_count`, and whether `final_metrics` has been set (a Python
5-tuple is always truthy, so one `Bool` captures its truthiness).  On a launch
or extraction failure the source breaks and reaches the final
`if final_metrics and optimal_user_count > 0` guard; on rejection it runs the
binary search, re-extracts metrics at the returned count (again a 5-tuple,
always truthy), and reaches the same guard. -/
def adjustAux (env : TrialEnv) :
    Nat → Int → Int → Int → Bool → Option AdjustRun
  | 0, _, _, _, _ => none
  | Nat.succ fuel, user_count, previous_user_count, optimal_user_count,
      hasMetrics =>
    match run_benchmark (env.run user_count) with
    | (none, _) =>
        let ok := hasMetrics && decide (0 < optimal_user_count)
        some ⟨[([user_count], user_count)], [user_count], none,
          if ok then some optimal_user_count else none, ok⟩
    | (some _, _) =>
        match extract_metrics_from_avg_response env.dir user_count with
        | none =>
            let ok := hasMetrics && decide (0 < optimal_user_count)
            some ⟨[([user_count], user_count)], [user_count], none,
              if ok then some optimal_user_count else none, ok⟩
        | some (ttft, latency_per_token, latency, _, _) =>
            if validate_criterion ttft latency_per_token latency then
              match adjustAux env fuel (user_count + 10) user_count user_count
                  true with
              | none => none
              | some r =>
                  some ⟨([user_count], user_count) :: r.launches,
                    user_count :: r.phase1Trials, r.bsBounds, r.optimal,
                    r.reportWritten⟩
            else
              let b := binary_search_user_count env previous_user_count
                user_count
              let ok := decide (0 < b.result)
              some ⟨([user_count], user_count) :: b.launches, [user_count],
                some (previous_user_count, user_count),
                if ok then some b.result else none, ok⟩

/-- Embedding of `adjust_user_count(config_file)` on a config that does carry
an `out_dir` key: Phase 1 starts at `user_count = 56` with `increment = 10`,
`previous_user_count = 0`, `optimal_user_count = 0` and `final_metrics = None`. -/
def adjust_user_count (env : TrialEnv) (fuel : Nat) : Option AdjustRun :=
  adjustAux env fuel 56 0 0 false

/-- One summary record handed to `generate_summary_report` by the continuous
runner: user count, the five metrics in the order the source lists them, and
the benchmark wall time. -/
structure ContReport where
  user_count : Int
  metrics : ℚ × ℚ × ℚ × ℚ × ℚ
  benchmark_time : Option ℚ
deriving DecidableEq

/-- Instrumented result of the continuous runner: config writes paired with
dispatched counts, and the summary records actually emitted. -/
structure ContRun where
  launches : List (List Int × Int)
  reports : List ContReport
deriving DecidableEq

/-- Loop body of `run_benchmark_with_incremental_requests`, fuel-indexed (the
source loops forever; fuel 0 = still running, no further observations).  Each
iteration gets a fresh environment `envs i` because every run rewrites the
artifacts.  The source destructures the extractor's 5-tuple positionally as
`ttft, latency, latency_per_token, throughput, total_throughput` and stops
when `not all([ttft, latency, latency_per_token, throughput])` — i.e. when any
of the first four components is falsy (`None` or zero). -/
def contAuxGo : Nat → (Nat → TrialEnv) → Int → ContRun
  | 0, _, _ => ⟨[], []⟩
  | Nat.succ fuel, envs, optimal_user_count =>
    match run_benchmark ((envs 0).run optimal_user_count) with
    | (none, _) => ⟨[([optimal_user_count], optimal_user_count)], []⟩
    | (some _, benchmark_time) =>
        match extract_metrics_from_avg_response (envs 0).dir
            optimal_user_count with
        | none => ⟨[([optimal_user_count], optimal_user_count)], []⟩
        | some (ttft, latency, latency_per_token, throughput,
            total_throughput) =>
            if ttft ≠ 0 ∧ latency ≠ 0 ∧ latency_per_token ≠ 0 ∧
                throughput ≠ 0 then
              let rest := contAuxGo fuel (fun i => envs (i + 1))
                optimal_user_count
              ⟨([optimal_user_count], optimal_user_count) :: rest.launches,
                ⟨optimal_user_count,
                  (ttft, latency, latency_per_token, throughput,
                    total_throughput), benchmark_time⟩ :: rest.reports⟩
            else ⟨[([optimal_user_count], optimal_user_count)], []⟩

/-- Embedding of `run_benchmark_with_incremental_requests(config_file,
optimal_user_count, result_dir)`, observed for `fuel` iterations. -/
def run_benchmark_with_incremental_requests (envs : Nat → TrialEnv)
    (optimal_user_count : Int) (fuel : Nat) : ContRun :=
  contAuxGo fuel envs optimal_user_count

/-- One row of `summary_report.csv`, with the column mapping used by
`generate_summary_report` (`TTFT` = metrics[0], `Latency` = metrics[2],
`Latency per Token` = metrics[1], `Throughput` = metrics[3],
`Total Throughput` = metrics[4]). -/
structure SummaryRow where
  optimal_user_count : Int
  ttft : ℚ
  latency : ℚ
  latency_per_token : ℚ
  throughput : ℚ
  total_throughput : ℚ
  benchmark_time : Option ℚ
deriving DecidableEq

/-- Minimal file-system state observed by the report generator: the set of
directories created and, for each path, the rows of the report file stored
there (paths are component lists). -/
structure ReportFs where
  dirs : List (List String)
  files : List (List String × List SummaryRow)
deriving DecidableEq

/-- Contents stored at a path, if any. -/
def fsLookup (fs : ReportFs) (path : List String) : Option (List SummaryRow) :=
  (fs.files.find? fun pr => pr.1 == path).map Prod.snd

/-- Embedding of `generate_summary_report(config_file, optimal_user_count,
metrics, benchmark_time)`.  The whole body sits in a `try/except`, so a write
failure (modelled by `writeOk = false`) is logged and the function returns
normally with no observable file-system change.  On success it creates the
parent directories of `<out_dir>/Results/summary_report.csv` and stores a
single-row data frame there, replacing any previous contents at that path. -/
def generate_summary_report (fs : ReportFs) (out_dir : String)
    (optimal_user_count : Int) (metrics : ℚ × ℚ × ℚ × ℚ × ℚ)
    (benchmark_time : Option ℚ) (writeOk : Bool) : ReportFs :=
  let path := [out_dir, "Results", "summary_report.csv"]
  if writeOk then
    { dirs := [out_dir] :: [out_dir, "Results"] :: fs.dirs,
      files := (path,
          [⟨optimal_user_count, metrics.1, metrics.2.2.1, metrics.2.1,
            metrics.2.2.2.1, metrics.2.2.2.2, benchmark_time⟩]) ::
        fs.files.filter fun pr => !(pr.1 == path) }
  else fs

/-! Concrete environments used to exercise the definitions. -/

/-- Artifact row that passes the thresholds. -/
def goodRow : AvgRow := ⟨100, 50, 100, 5⟩

/-- Artifact row that violates the TTFT (and latency-per-token) thresholds. -/
def badRow : AvgRow := ⟨3000, 300, 3000, 1⟩

/-- Campaign in which every launch completes and every count up to `K` passes
the thresholds while every count above `K` fails them. -/
def envThreshold (K : Int) : TrialEnv :=
  ⟨fun _ => .completed 0 0,
    fun n => some (some (if n ≤ K then goodRow else badRow))⟩

/-- Campaign in which every trial runs but never meets the thresholds. -/
def rejectEnv : TrialEnv :=
  ⟨fun _ => .completed 0 0, fun _ => some (some badRow)⟩

/-- Campaign accepting exactly the counts below 86. -/
def env86 : TrialEnv := envThreshold 85

/-- Campaign whose trial at count 66 leaves a malformed artifact while every
other trial passes the thresholds. -/
def envC1 : TrialEnv :=
  ⟨fun _ => .completed 0 0,
    fun n => if n = 66 then some none else some (some goodRow)⟩

/-- Campaign in which every artifact is present but malformed. -/
def envMalformed : TrialEnv :=
  ⟨fun _ => .completed 0 0, fun _ => some none⟩

/-- Campaign whose first trial (56) fails the thresholds and whose Phase-2
trial at the first midpoint 28 of `(0, 56)` leaves a malformed artifact: an
extractor failure in Phase 2 before any trial was accepted. -/
def envPhase2Fail : TrialEnv :=
  ⟨fun _ => .completed 0 0,
    fun n =>
      if n = 28 then some none
      else if n = 56 then some (some badRow) else some (some goodRow)⟩

/-- Continuous-runner environment whose extraction always succeeds but reports
a zero TTFT. -/
def envZero : Nat → TrialEnv :=
  fun _ => ⟨fun _ => .completed 0 7, fun _ => some (some ⟨0, 50, 100, 5⟩)⟩

/-- Continuous-runner environment whose extraction always succeeds with
nonzero metrics. -/
def envLive : Nat → TrialEnv :=
  fun _ => ⟨fun _ => .completed 0 7, fun _ => some (some goodRow)⟩

/-! Helper lemmas about the binary-search loop. -/

/-- When the interval is empty the loop body never runs: no trial is
dispatched and the function returns `low - 1`. -/
theorem binary_search_stop (env : TrialEnv) {low high : Int}
    (h : ¬ low < high) :
    binary_search_user_count env low high = ⟨[], low, low - 1⟩ := by
  rw [binary_search_user_count.eq_def, dif_neg h]

/-- One unfolding of the binary-search loop, keyed on the classification of
the trial at the midpoint. -/
theorem binary_search_step (env : TrialEnv) (low high : Int)
    (h : low < high) :
    binary_search_user_count env low high =
      match trialOutcome env ((low + high) / 2) with
      | .runFail =>
          ⟨[([(low + high) / 2], (low + high) / 2)], low, low - 1⟩
      | .extractFail =>
          ⟨[([(low + high) / 2], (low + high) / 2)], low, low - 1⟩
      | .accept =>
          let r := binary_search_user_count env ((low + high) / 2 + 1) high
          ⟨([(low + high) / 2], (low + high) / 2) :: r.launches,
            r.finalLow, r.result⟩
      | .reject =>
          let r := binary_search_user_count env low ((low + high) / 2)
          ⟨([(low + high) / 2], (low + high) / 2) :: r.launches,
            r.finalLow, r.result⟩ := by
  rw [binary_search_user_count.eq_def, dif_pos h]
  cases henv : env.run ((low + high) / 2) with
  | completed c t =>
      simp only [run_benchmark]
      cases hex : extract_metrics_from_avg_response env.dir
          ((low + high) / 2) with
      | none => simp [trialOutcome, run_benchmark, henv, hex]
      | some m =>
          obtain ⟨m1, m2, m3, m4, m5⟩ := m
          by_cases hv : validate_criterion m1 m2 m3 = true
          · simp [trialOutcome, run_benchmark, henv, hex, hv]
          · simp [trialOutcome, run_benchmark, henv, hex, hv]
  | raised => simp [trialOutcome, run_benchmark, henv]

/-- Every exit point of the binary-search loop returns `low - 1` for the value
of `low` current at that exit (fuel-indexed strong induction form). -/
theorem binary_search_result_aux (env : TrialEnv) :
    ∀ (n : Nat) (low high : Int), (high - low).toNat ≤ n →
      (binary_search_user_count env low high).result =
        (binary_search_user_count env low high).finalLow - 1 := by
  intro n
  induction n with
  | zero =>
      intro low high hb
      have h : ¬ low < high := by omega
      rw [binary_search_stop env h]
  | succ n ih =>
      intro low high hb
      by_cases h : low < high
      · rw [binary_search_step env low high h]
        cases trialOutcome env ((low + high) / 2) with
        | runFail => rfl
        | extractFail => rfl
        | accept =>
            dsimp only
            exact ih ((low + high) / 2 + 1) high (by omega)
        | reject =>
            dsimp only
            exact ih low ((low + high) / 2) (by omega)
      · rw [binary_search_stop env h]

/-- Every config write recorded by the binary-search loop is the singleton of
the count about to be dispatched (fuel-indexed form). -/
theorem binary_search_launches_aux (env : TrialEnv) :
    ∀ (n : Nat) (low high : Int), (high - low).toNat ≤ n →
      ∀ p ∈ (binary_search_user_count env low high).launches, p.1 = [p.2] := by
  intro n
  induction n with
  | zero =>
      intro low high hb
      have h : ¬ low < high := by omega
      rw [binary_search_stop env h]
      intro p hp
      simp at hp
  | succ n ih =>
      intro low high hb
      by_cases h : low < high
      · rw [binary_search_step env low high h]
        cases trialOutcome env ((low + high) / 2) with
        | runFail =>
            intro p hp
            simp at hp
            subst hp
            rfl
        | extractFail =>
            intro p hp
            simp at hp
            subst hp
            rfl
        | accept =>
            dsimp only
            intro p hp
            rcases List.mem_cons.mp hp with h1 | h2
            · subst h1; rfl
            · exact ih ((low + high) / 2 + 1) high (by omega) p h2
        | reject =>
            dsimp only
            intro p hp
            rcases List.mem_cons.mp hp with h1 | h2
            · subst h1; rfl
            · exact ih low ((low + high) / 2) (by omega) p h2
      · rw [binary_search_stop env h]
        intro p hp
        simp at hp

/-- If every trial is rejected, the binary search walks `high` down to `low`
and returns the unchanged `low` minus one (fuel-indexed form). -/
theorem binary_search_all_reject_aux (env : TrialEnv)
    (hrej : ∀ k : Int, trialOutcome env k = TrialOut.reject) :
    ∀ (n : Nat) (low high : Int), (high - low).toNat ≤ n →
      (binary_search_user_count env low high).result = low - 1 := by
  intro n
  induction n with
  | zero =>
      intro low high hb
      have h : ¬ low < high := by omega
      rw [binary_search_stop env h]
  | succ n ih =>
      intro low high hb
      by_cases h : low < high
      · rw [binary_search_step env low high h, hrej ((low + high) / 2)]
        dsimp only
        exact ih low ((low + high) / 2) (by omega)
      · rw [binary_search_stop env h]

/-- Convergence of the refinement loop under a monotone threshold acceptance:
if counts up to `K` are accepted and counts above `K` rejected, then from any
state with `low ≤ K + 1 ≤ high` the loop returns exactly `K` (fuel-indexed
form). -/
theorem binary_search_threshold_aux (env : TrialEnv) (K : Int)
    (hacc : ∀ k : Int,
      trialOutcome env k = if k ≤ K then TrialOut.accept else TrialOut.reject) :
    ∀ (n : Nat) (low high : Int), (high - low).toNat ≤ n →
      low ≤ K + 1 → K + 1 ≤ high →
      (binary_search_user_count env low high).result = K := by
  intro n
  induction n with
  | zero =>
      intro low high hb h1 h2
      have h : ¬ low < high := by omega
      rw [binary_search_stop env h]
      show low - 1 = K
      omega
  | succ n ih =>
      intro low high hb h1 h2
      by_cases h : low < high
      · rw [binary_search_step env low high h, hacc ((low + high) / 2)]
        by_cases hm : (low + high) / 2 ≤ K
        · rw [if_pos hm]
          dsimp only
          exact ih ((low + high) / 2 + 1) high (by omega) (by omega) h2
        · rw [if_neg hm]
          dsimp only
          exact ih low ((low + high) / 2) (by omega) h1 (by omega)
      · rw [binary_search_stop env h]
        show low - 1 = K
        omega

/-- In `envThreshold K`, a trial is accepted exactly up to `K`. -/
theorem trialOutcome_envThreshold (K n : Int) :
    trialOutcome (envThreshold K) n =
      if n ≤ K then TrialOut.accept else TrialOut.reject := by
  by_cases h : n ≤ K
  · simp only [trialOutcome, envThreshold, run_benchmark,
      extract_metrics_from_avg_response, if_pos h]
    norm_num [validate_criterion, VALIDATION_CRITERION, goodRow]
  · simp only [trialOutcome, envThreshold, run_benchmark,
      extract_metrics_from_avg_response, if_neg h]
    norm_num [validate_criterion, VALIDATION_CRITERION, badRow]

/-- In `rejectEnv` every trial is rejected. -/
theorem trialOutcome_rejectEnv (n : Int) :
    trialOutcome rejectEnv n = TrialOut.reject := by
  simp only [trialOutcome, rejectEnv, run_benchmark,
    extract_metrics_from_avg_response]
  norm_num [validate_criterion, VALIDATION_CRITERION, badRow]

/-- An `extractFail` classification means the launch completed but the
extractor returned the failure value. -/
theorem trialOutcome_extractFail_elim {env : TrialEnv} {n : Int}
    (hto : trialOutcome env n = TrialOut.extractFail) :
    ∃ exitCode elapsed, env.run n = LaunchOutcome.completed exitCode elapsed
      ∧ extract_metrics_from_avg_response env.dir n = none := by
  unfold trialOutcome at hto
  cases henv : env.run n with
  | completed c t =>
      rw [henv] at hto
      simp only [run_benchmark] at hto
      cases hex : extract_metrics_from_avg_response env.dir n with
      | none => exact ⟨c, t, rfl, rfl⟩
      | some m =>
          obtain ⟨m1, m2, m3, m4, m5⟩ := m
          rw [hex] at hto
          dsimp only at hto
          split_ifs at hto
  | raised =>
      rw [henv] at hto
      simp [run_benchmark] at hto

/-- A `reject` classification means the launch completed, the extractor
succeeded, and the validator refused the metrics. -/
theorem trialOutcome_reject_elim {env : TrialEnv} {n : Int}
    (hto : trialOutcome env n = TrialOut.reject) :
    ∃ exitCode elapsed m1 m2 m3 m4 m5,
      env.run n = LaunchOutcome.completed exitCode elapsed
      ∧ extract_metrics_from_avg_response env.dir n =
          some (m1, m2, m3, m4, m5)
      ∧ validate_criterion m1 m2 m3 = false := by
  unfold trialOutcome at hto
  cases henv : env.run n with
  | completed c t =>
      rw [henv] at hto
      simp only [run_benchmark] at hto
      cases hex : extract_metrics_from_avg_response env.dir n with
      | none =>
          rw [hex] at hto
          simp at hto
      | some m =>
          obtain ⟨m1, m2, m3, m4, m5⟩ := m
          rw [hex] at hto
          dsimp only at hto
          by_cases hv : validate_criterion m1 m2 m3 = true
          · rw [if_pos hv] at hto
            simp at hto
          · exact ⟨c, t, m1, m2, m3, m4, m5, rfl, rfl, by simpa using hv⟩
  | raised =>
      rw [henv] at hto
      simp [run_benchmark] at hto

/-- If no trial actually dispatched by the binary search is accepted — in
particular when a failure aborts the loop before any acceptance — then `low`
never moves from its initial value (fuel-indexed form). -/
theorem binary_search_no_accept_aux (env : TrialEnv) :
    ∀ (n : Nat) (low high : Int), (high - low).toNat ≤ n →
      (∀ m ∈ (binary_search_user_count env low high).launches.map Prod.snd,
        trialOutcome env m ≠ TrialOut.accept) →
      (binary_search_user_count env low high).finalLow = low := by
  intro n
  induction n with
  | zero =>
      intro low high hb _
      have h : ¬ low < high := by omega
      rw [binary_search_stop env h]
  | succ n ih =>
      intro low high hb hno
      by_cases h : low < high
      · cases hto : trialOutcome env ((low + high) / 2) with
        | runFail =>
            rw [binary_search_step env low high h, hto]
        | extractFail =>
            rw [binary_search_step env low high h, hto]
        | accept =>
            refine absurd hto (hno ((low + high) / 2) ?_)
            rw [binary_search_step env low high h, hto]
            simp
        | reject =>
            rw [binary_search_step env low high h, hto]
            dsimp only
            refine ih low ((low + high) / 2) (by omega) ?_
            intro m hm
            refine hno m ?_
            rw [binary_search_step env low high h, hto]
            dsimp only
            simp only [List.map_cons]
            exact List.mem_cons_of_mem _ hm
      · rw [binary_search_stop env h]

/-- The summary report of `adjust_user_count` is written if and only if a
positive optimal count is returned: both sit behind the same
`if final_metrics and optimal_user_count > 0` guard (fuel-indexed form). -/
theorem adjustAux_report_iff (env : TrialEnv) :
    ∀ (fuel : Nat) (uc prev opt : Int) (hm : Bool) (r : AdjustRun),
      adjustAux env fuel uc prev opt hm = some r →
      (r.reportWritten = false ↔ r.optimal = none) := by
  intro fuel
  induction fuel with
  | zero =>
      intro uc prev opt hm r h
      simp [adjustAux] at h
  | succ fuel ih =>
      intro uc prev opt hm r h
      rw [adjustAux] at h
      cases henv : env.run uc with
      | raised =>
          rw [henv] at h
          simp only [run_benchmark] at h
          injection h with h'
          subst h'
          cases hok : (hm && decide (0 < opt)) <;> simp [hok]
      | completed c t =>
          rw [henv] at h
          simp only [run_benchmark] at h
          cases hex : extract_metrics_from_avg_response env.dir uc with
          | none =>
              rw [hex] at h
              dsimp only at h
              injection h with h'
              subst h'
              cases hok : (hm && decide (0 < opt)) <;> simp [hok]
          | some m =>
              obtain ⟨m1, m2, m3, m4, m5⟩ := m
              rw [hex] at h
              dsimp only at h
              by_cases hv : validate_criterion m1 m2 m3 = true
              · rw [if_pos hv] at h
                cases hrec : adjustAux env fuel (uc + 10) uc uc true with
                | none => rw [hrec] at h; exact absurd h (by simp)
                | some r' =>
                    rw [hrec] at h
                    injection h with h'
                    subst h'
                    exact ih (uc + 10) uc uc true r' hrec
              · rw [if_neg hv] at h
                injection h with h'
                subst h'
                cases hok : decide
                    (0 < (binary_search_user_count env prev uc).result) <;>
                  simp [hok]

/-- Every config write recorded by `adjust_user_count` (Phase 1 trials plus
the binary-search trials of Phase 2) is the singleton of the count about to be
dispatched (fuel-indexed form). -/
theorem adjustAux_launches (env : TrialEnv) :
    ∀ (fuel : Nat) (uc prev opt : Int) (hm : Bool) (r : AdjustRun),
      adjustAux env fuel uc prev opt hm = some r →
      ∀ p ∈ r.launches, p.1 = [p.2] := by
  intro fuel
  induction fuel with
  | zero =>
      intro uc prev opt hm r h
      simp [adjustAux] at h
  | succ fuel ih =>
      intro uc prev opt hm r h
      rw [adjustAux] at h
      cases henv : env.run uc with
      | raised =>
          rw [henv] at h
          simp only [run_benchmark] at h
          injection h with h'
          subst h'
          intro p hp
          simp at hp
          subst hp
          rfl
      | completed c t =>
          rw [henv] at h
          simp only [run_benchmark] at h
          cases hex : extract_metrics_from_avg_response env.dir uc with
          | none =>
              rw [hex] at h
              dsimp only at h
              injection h with h'
              subst h'
              intro p hp
              simp at hp
              subst hp
              rfl
          | some m =>
              obtain ⟨m1, m2, m3, m4, m5⟩ := m
              rw [hex] at h
              dsimp only at h
              by_cases hv : validate_criterion m1 m2 m3 = true
              · rw [if_pos hv] at h
                cases hrec : adjustAux env fuel (uc + 10) uc uc true with
                | none => rw [hrec] at h; exact absurd h (by simp)
                | some r' =>
                    rw [hrec] at h
                    injection h with h'
                    subst h'
                    intro p hp
                    rcases List.mem_cons.mp hp with h1 | h2
                    · subst h1; rfl
                    · exact ih (uc + 10) uc uc true r' hrec p h2
              · rw [if_neg hv] at h
                injection h with h'
                subst h'
                intro p hp
                rcases List.mem_cons.mp hp with h1 | h2
                · subst h1; rfl
                · exact binary_search_launches_aux env (uc - prev).toNat prev
                    uc le_rfl p h2

/-- Every config write recorded by the continuous runner is the singleton of
the count about to be dispatched (fuel-indexed form). -/
theorem contAuxGo_launches :
    ∀ (fuel : Nat) (envs : Nat → TrialEnv) (uc : Int),
      ∀ p ∈ (contAuxGo fuel envs uc).launches, p.1 = [p.2] := by
  intro fuel
  induction fuel with
  | zero =>
      intro envs uc p hp
      simp [contAuxGo] at hp
  | succ fuel ih =>
      intro envs uc p hp
      rw [contAuxGo] at hp
      cases henv : (envs 0).run uc with
      | raised =>
          rw [henv] at hp
          simp only [run_benchmark] at hp
          simp at hp
          subst hp
          rfl
      | completed c t =>
          rw [henv] at hp
          simp only [run_benchmark] at hp
          cases hex : extract_metrics_from_avg_response (envs 0).dir uc with
          | none =>
              rw [hex] at hp
              simp at hp
              subst hp
              rfl
          | some m =>
              obtain ⟨m1, m2, m3, m4, m5⟩ := m
              rw [hex] at hp
              dsimp only at hp
              by_cases hz : m1 ≠ 0 ∧ m2 ≠ 0 ∧ m3 ≠ 0 ∧ m4 ≠ 0
              · rw [if_pos hz] at hp
                rcases List.mem_cons.mp hp with h1 | h2
                · subst h1; rfl
                · exact ih (fun i => envs (i + 1)) uc p h2
              · rw [if_neg hz] at hp
                simp at hp
                subst hp
                rfl

/-! Claim theorems. -/

/-- C2: for every acceptance behaviour that accepts counts up to `K` and
rejects counts above `K` (`K` a fixed positive integer), and any initial
bounds with `low < K < high`, `binary_search_user_count` terminates (it is a
total function) and returns `K`, the highest accepted count. -/
theorem claim2_binary_search_converges (env : TrialEnv) (K : Int)
    (hK : 0 < K)
    (hacc : ∀ k : Int, trialOutcome env k =
      if k ≤ K then TrialOut.accept else TrialOut.reject)
    (low high : Int) (hlow : low < K) (hhigh : K < high) :
    (binary_search_user_count env low high).result = K :=
  binary_search_threshold_aux env K hacc (high - low).toNat low high le_rfl
    (by omega) (by omega)

/-- C2 witness: with threshold `K = 3` and bounds `(0, 10)` the search returns
`3`. -/
theorem claim2_witness :
    (0 : Int) < 3 ∧ (0 : Int) < 3 ∧ (3 : Int) < 10 ∧
      (binary_search_user_count (envThreshold 3) 0 10).result = 3 :=
  ⟨by decide, by decide, by decide,
    claim2_binary_search_converges (envThreshold 3) 3 (by decide)
      (fun k => trialOutcome_envThreshold 3 k) 0 10 (by decide) (by decide)⟩

/-- C3: `validate_criterion t l x` holds exactly when `t ≤ 2000` and
`l ≤ 200`; the third (latency) argument never affects the result; and the raw
end-to-end latency threshold stored in the threshold table is not enforced
(the validator accepts a latency far above it). -/
theorem claim3_validator (t l x : ℚ) :
    (validate_criterion t l x = true ↔ t ≤ 2000 ∧ l ≤ 200)
    ∧ (∀ y : ℚ, validate_criterion t l x = validate_criterion t l y)
    ∧ validate_criterion 100 100 (VALIDATION_CRITERION.latency + 1000) = true
    ∧ ¬ ((VALIDATION_CRITERION.latency + 1000 : ℚ) ≤
        VALIDATION_CRITERION.latency) := by
  refine ⟨?_, fun y => rfl, by decide, by norm_num [VALIDATION_CRITERION]⟩
  simp [validate_criterion, VALIDATION_CRITERION]

/-- C4: the binary search is a total function of the outcome environment and
the bounds; it returns the final value of `low` minus one at every exit
(normal exit and failure break alike); on a normal exit with `low = high` no
trial is dispatched at that boundary; and the returned value can be negative
when the lower bound never validated (all-reject campaign from `(0, 56)`). -/
theorem claim4_exit_value :
    (∀ (env : TrialEnv) (low high : Int),
      (binary_search_user_count env low high).result =
        (binary_search_user_count env low high).finalLow - 1)
    ∧ (∀ (env : TrialEnv) (low high : Int), ¬ low < high →
        binary_search_user_count env low high = ⟨[], low, low - 1⟩)
    ∧ (binary_search_user_count rejectEnv 0 56).result = -1 := by
  refine ⟨fun env low high =>
      binary_search_result_aux env (high - low).toNat low high le_rfl,
    fun env low high h => binary_search_stop env h, ?_⟩
  have h := binary_search_all_reject_aux rejectEnv trialOutcome_rejectEnv
    (56 - 0 : Int).toNat 0 56 le_rfl
  rw [h]
  decide

/-- C4 witness: an empty interval returns immediately with no trial and value
`low - 1`. -/
theorem claim4_witness :
    ¬ (5 : Int) < 3 ∧ binary_search_user_count rejectEnv 5 3 = ⟨[], 5, 4⟩ := by
  refine ⟨by decide, ?_⟩
  rw [claim4_exit_value.2.1 rejectEnv 5 3 (by decide)]
  decide

/-- C8: the trial runner returns the `None` result exactly when the external
process could not be launched (an exception during invocation); a process that
launches — whatever its exit code — is returned as a result together with the
elapsed wall time. -/
theorem claim8_trial_runner :
    (∀ o : LaunchOutcome,
      ((run_benchmark o).1 = none ↔ o = LaunchOutcome.raised)
      ∧ ((run_benchmark o).2 = none ↔ o = LaunchOutcome.raised))
    ∧ ∀ (exitCode : Int) (elapsed : ℚ),
        run_benchmark (LaunchOutcome.completed exitCode elapsed) =
          (some exitCode, some elapsed) := by
  constructor
  · intro o
    cases o <;> simp [run_benchmark]
  · intro exitCode elapsed
    rfl

/-- C9: the report generator stores exactly one row at the fixed path
`<out_dir>/Results/summary_report.csv`, independent of any previous contents
of the file system (overwrite, not append), creates the parent directories,
and on a write failure returns normally with no file-system change instead of
propagating an exception. -/
theorem claim9_summary_report (fs : ReportFs) (out_dir : String) (oc : Int)
    (m0 m1 m2 m3 m4 : ℚ) (bt : Option ℚ) :
    fsLookup (generate_summary_report fs out_dir oc (m0, m1, m2, m3, m4) bt
        true) [out_dir, "Results", "summary_report.csv"] =
      some [⟨oc, m0, m2, m1, m3, m4, bt⟩]
    ∧ [out_dir, "Results"] ∈
        (generate_summary_report fs out_dir oc (m0, m1, m2, m3, m4) bt
          true).dirs
    ∧ generate_summary_report fs out_dir oc (m0, m1, m2, m3, m4) bt false
        = fs := by
  refine ⟨?_, ?_, rfl⟩
  · simp [fsLookup, generate_summary_report, List.find?]
  · simp [generate_summary_report]

/-- C1 (amended): a Metrics-Extractor failure aborts the search without an
unhandled fault (the controller is a total function); a summary report is
written if and only if an optimal count is returned; and when the failure
occurs before any trial has been accepted, the controller returns "no optimal
count found" and no summary report is written — both in Phase 1, where a
pre-acceptance failure can only hit the first trial (count 56), and in
Phase 2 entered after the first trial was rejected (bounds `(0, 56)`), where
no trial dispatched by the binary search was accepted before the abort.  When
earlier trials were already accepted the code instead returns the best-known
count and does write a report — see the counterexample. -/
theorem claim1_failure_abort (env : TrialEnv) (fuel : Nat) (r : AdjustRun)
    (h : adjust_user_count env fuel = some r) :
    (r.reportWritten = false ↔ r.optimal = none)
    ∧ (trialOutcome env 56 = TrialOut.extractFail →
        r.optimal = none ∧ r.reportWritten = false)
    ∧ (trialOutcome env 56 = TrialOut.reject →
        (∀ m ∈ (binary_search_user_count env 0 56).launches.map Prod.snd,
          trialOutcome env m ≠ TrialOut.accept) →
        r.optimal = none ∧ r.reportWritten = false) := by
  refine ⟨adjustAux_report_iff env fuel 56 0 0 false r h, ?_, ?_⟩
  · intro hto
    obtain ⟨c, t, henv, hex⟩ := trialOutcome_extractFail_elim hto
    unfold adjust_user_count at h
    cases fuel with
    | zero => simp [adjustAux] at h
    | succ fuel =>
        rw [adjustAux] at h
        rw [henv] at h
        simp only [run_benchmark] at h
        rw [hex] at h
        dsimp only at h
        injection h with h'
        subst h'
        exact ⟨rfl, rfl⟩
  · intro hto hno
    obtain ⟨c, t, m1, m2, m3, m4, m5, henv, hex, hv⟩ :=
      trialOutcome_reject_elim hto
    have hfl := binary_search_no_accept_aux env (56 - 0 : Int).toNat 0 56
      le_rfl hno
    have hrl := binary_search_result_aux env (56 - 0 : Int).toNat 0 56 le_rfl
    have hr : (binary_search_user_count env 0 56).result = -1 := by omega
    unfold adjust_user_count at h
    cases fuel with
    | zero => simp [adjustAux] at h
    | succ fuel =>
        rw [adjustAux] at h
        rw [henv] at h
        simp only [run_benchmark] at h
        rw [hex] at h
        dsimp only at h
        rw [if_neg (by simp [hv])] at h
        injection h with h'
        subst h'
        constructor
        · dsimp only
          rw [hr]
          decide
        · dsimp only
          rw [hr]
          decide

/-- C1 counterexample: the claim as stated fails on the code.  In `envC1` the
trial at 56 is accepted and the trial at 66 hits a malformed artifact
(`extractFail`); the controller then returns the best-known count 56 — not
"no optimal count found" — and the summary report IS written. -/
theorem claim1_counterexample :
    trialOutcome envC1 56 = TrialOut.accept
    ∧ trialOutcome envC1 66 = TrialOut.extractFail
    ∧ (adjust_user_count envC1 10).map AdjustRun.optimal = some (some 56)
    ∧ (adjust_user_count envC1 10).map AdjustRun.reportWritten = some true := by
  decide

/-- C1 witness: on a campaign whose very first trial leaves a malformed
artifact, and on a campaign whose first trial is rejected and whose Phase-2
trial at midpoint 28 leaves a malformed artifact before any acceptance, the
controller returns no optimal count and writes no report. -/
theorem claim1_witness :
    ((AdjustRun.mk [([56], 56)] [56] none none false).reportWritten = false ↔
      (AdjustRun.mk [([56], 56)] [56] none none false).optimal = none)
    ∧ ((AdjustRun.mk [([56], 56)] [56] none none false).optimal = none
      ∧ (AdjustRun.mk [([56], 56)] [56] none none false).reportWritten
          = false)
    ∧ ((AdjustRun.mk [([56], 56), ([28], 28)] [56] (some (0, 56)) none
          false).optimal = none
      ∧ (AdjustRun.mk [([56], 56), ([28], 28)] [56] (some (0, 56)) none
          false).reportWritten = false) := by
  have hbs : binary_search_user_count envPhase2Fail 0 56 =
      ⟨[([28], 28)], 0, -1⟩ := by
    rw [binary_search_step envPhase2Fail 0 56 (by decide)]
    rw [(by decide : ((0 : Int) + 56) / 2 = 28)]
    rw [(by decide : trialOutcome envPhase2Fail 28 = TrialOut.extractFail)]
    decide
  have hadj : adjust_user_count envPhase2Fail 1 =
      some ⟨[([56], 56), ([28], 28)], [56], some (0, 56), none, false⟩ := by
    show adjustAux envPhase2Fail (Nat.succ 0) 56 0 0 false =
      some ⟨[([56], 56), ([28], 28)], [56], some (0, 56), none, false⟩
    rw [adjustAux]
    simp only [envPhase2Fail, badRow] at hbs
    norm_num [envPhase2Fail, run_benchmark, extract_metrics_from_avg_response,
      badRow, validate_criterion, VALIDATION_CRITERION, hbs]
  refine ⟨(claim1_failure_abort envMalformed 1 (AdjustRun.mk [([56], 56)]
      [56] none none false) (by decide)).1,
    (claim1_failure_abort envMalformed 1 (AdjustRun.mk [([56], 56)] [56] none
      none false) (by decide)).2.1 (by decide),
    (claim1_failure_abort envPhase2Fail 1 (AdjustRun.mk [([56], 56),
      ([28], 28)] [56] (some (0, 56)) none false) hadj).2.2 (by decide) ?_⟩
  intro m hm
  rw [hbs] at hm
  simp at hm
  subst hm
  decide

/-- C5: with the default initial state (`user_count = 56`, `increment = 10`,
`previous_accepted = 0`) and acceptance true exactly below 86, Phase 1 runs
trials at 56, 66, 76, 86 in that order, accepts the first three, rejects 86,
and enters Phase 2 with bounds `low = 76`, `high = 86`. -/
theorem claim5_phase1_probe :
    (adjust_user_count env86 10).map AdjustRun.phase1Trials =
      some [56, 66, 76, 86]
    ∧ (adjust_user_count env86 10).map AdjustRun.bsBounds =
        some (some (76, 86))
    ∧ trialOutcome env86 56 = TrialOut.accept
    ∧ trialOutcome env86 66 = TrialOut.accept
    ∧ trialOutcome env86 76 = TrialOut.accept
    ∧ trialOutcome env86 86 = TrialOut.reject := by
  decide

/-- C6: in Phase 1, in Phase 2 and in the continuous runner alike, the config
document's `user_counts` value persisted immediately before each benchmark
launch is exactly the singleton list of the count being dispatched. -/
theorem claim6_config_write :
    (∀ (env : TrialEnv) (low high : Int),
      ∀ p ∈ (binary_search_user_count env low high).launches, p.1 = [p.2])
    ∧ (∀ (env : TrialEnv) (fuel : Nat) (r : AdjustRun),
        adjust_user_count env fuel = some r →
        ∀ p ∈ r.launches, p.1 = [p.2])
    ∧ (∀ (envs : Nat → TrialEnv) (uc : Int) (fuel : Nat),
        ∀ p ∈ (run_benchmark_with_incremental_requests envs uc fuel).launches,
          p.1 = [p.2]) :=
  ⟨fun env low high =>
      binary_search_launches_aux env (high - low).toNat low high le_rfl,
   fun env fuel r h => adjustAux_launches env fuel 56 0 0 false r h,
   fun envs uc fuel => contAuxGo_launches fuel envs uc⟩

/-- C6 witness: the single launch of a one-iteration continuous run was
dispatched with `user_counts = [3]` for trial count 3. -/
theorem claim6_witness :
    ([3], (3 : Int)) ∈
      (run_benchmark_with_incremental_requests envLive 3 1).launches
    ∧ (([3], (3 : Int)) : List Int × Int).1 =
        [(([3], (3 : Int)) : List Int × Int).2] :=
  ⟨by decide, claim6_config_write.2.2 envLive 3 1 ([3], 3) (by decide)⟩

/-- C7: the metrics extractor is a total function (never raises); a missing
artifact or a malformed artifact both yield the failure value, and on success
the fifth metric equals `throughput * user_count`. -/
theorem claim7_extractor (dir : Int → Option (Option AvgRow))
    (user_count : Int) :
    (dir user_count = none →
      extract_metrics_from_avg_response dir user_count = none)
    ∧ (dir user_count = some none →
      extract_metrics_from_avg_response dir user_count = none)
    ∧ ∀ t lpt lat thr tot : ℚ,
        extract_metrics_from_avg_response dir user_count =
          some (t, lpt, lat, thr, tot) →
        tot = thr * (user_count : ℚ) := by
  refine ⟨fun h => by simp [extract_metrics_from_avg_response, h],
    fun h => by simp [extract_metrics_from_avg_response, h], ?_⟩
  intro t lpt lat thr tot h
  unfold extract_metrics_from_avg_response at h
  cases hd : dir user_count with
  | none =>
      rw [hd] at h
      exact absurd h (by simp)
  | some a =>
      cases a with
      | none =>
          rw [hd] at h
          exact absurd h (by simp)
      | some row =>
          rw [hd] at h
          dsimp only at h
          injection h with h'
          simp only [Prod.mk.injEq] at h'
          obtain ⟨h1, h2, h3, h4, h5⟩ := h'
          rw [← h5, h4]

/-- C7 witness: a missing artifact and a malformed artifact both give the
failure value, and a successful extraction at count 2 satisfies the
total-throughput equation. -/
theorem claim7_witness :
    extract_metrics_from_avg_response (fun _ => none) 1 = none
    ∧ extract_metrics_from_avg_response (fun _ => some none) 1 = none
    ∧ (10 : ℚ) = 5 * ((2 : Int) : ℚ) :=
  ⟨(claim7_extractor (fun _ => none) 1).1 rfl,
   (claim7_extractor (fun _ => some none) 1).2.1 rfl,
   (claim7_extractor (fun _ => some (some goodRow)) 2).2.2 100 50 100 5 10
     (by norm_num [extract_metrics_from_avg_response, goodRow])⟩

/-- C10: in an iteration of the continuous runner whose extraction SUCCEEDS,
the loop nonetheless stops without emitting a summary record whenever any of
the first four extracted metrics equals zero (Python truthiness), and it emits
the record and continues exactly when all four are nonzero. -/
theorem claim10_zero_metric_stops (envs : Nat → TrialEnv) (uc : Int)
    (fuel : Nat) (exitCode : Int) (tm a b c d e : ℚ)
    (hrun : (envs 0).run uc = LaunchOutcome.completed exitCode tm)
    (hex : extract_metrics_from_avg_response (envs 0).dir uc =
      some (a, b, c, d, e)) :
    ((a = 0 ∨ b = 0 ∨ c = 0 ∨ d = 0) →
      (run_benchmark_with_incremental_requests envs uc (fuel + 1)).reports
        = [])
    ∧ ((a ≠ 0 ∧ b ≠ 0 ∧ c ≠ 0 ∧ d ≠ 0) →
      (run_benchmark_with_incremental_requests envs uc (fuel + 1)).reports =
        ⟨uc, (a, b, c, d, e), some tm⟩ ::
          (run_benchmark_with_incremental_requests (fun i => envs (i + 1)) uc
            fuel).reports) := by
  unfold run_benchmark_with_incremental_requests
  rw [contAuxGo, hrun]
  simp only [run_benchmark]
  rw [hex]
  dsimp only
  constructor
  · intro hz
    rw [if_neg (by tauto)]
  · intro hnz
    rw [if_pos hnz]

/-- C10 witness: a zero TTFT stops the loop with no record; all-nonzero
metrics emit the record and continue. -/
theorem claim10_witness :
    (run_benchmark_with_incremental_requests envZero 3 4).reports = []
    ∧ (run_benchmark_with_incremental_requests envLive 3 3).reports =
        ⟨3, (100, 50, 100, 5, 15), some 7⟩ ::
          (run_benchmark_with_incremental_requests (fun i => envLive (i + 1))
            3 2).reports :=
  ⟨(claim10_zero_metric_stops envZero 3 3 0 7 0 50 100 5 15 (by decide)
      (by norm_num [extract_metrics_from_avg_response, envZero])).1
      (Or.inl rfl),
   (claim10_zero_metric_stops envLive 3 2 0 7 100 50 100 5 15 (by decide)
      (by norm_num [extract_metrics_from_avg_response, envLive, goodRow])).2
      (by norm_num)⟩

end OptimalRun
